import Mathlib

/-!
Shallow embedding of the genetic-algorithm timetable scheduler
(`src/modules/scheduler.py` and the entity records it operates on).

Python objects are mutable and compared by identity (`is`) in the
constraint checker, and the generator can append an *alias* of an
existing `Session` object to a schedule (the leaked loop variable at
`scheduler.py:176`).  To model this faithfully, `Session` objects live
in an explicit heap (`Store`, a list of `Session` values) and a
schedule's `sessions` list is a list of references (indices) into that
heap.  Object identity is reference equality; `copy.deepcopy` allocates
fresh cells while preserving internal sharing.
-/

namespace Scheduler

/-- Modelled from the spec: `Subject` — name string identity
(`src/modules/entities/subject.py` is not in the provided sources). -/
structure Subject where
  name : String
deriving DecidableEq, Repr

/-- Modelled from the spec: `Room` — integer identifier and capacity
(`src/modules/entities/room.py` is not in the provided sources). -/
structure Room where
  identifier : Int
  capacity : Int
deriving DecidableEq, Repr

/-- Modelled from the spec: `Teacher` — fullname string identity and
teachable subjects (`src/modules/entities/teacher.py` is not in the
provided sources). -/
structure Teacher where
  fullname : String
  teachable_subjects : List Subject
deriving DecidableEq, Repr

/-- Modelled from the spec: `Group` — name, size, and the ordered
(required_count, subject) requirement list
(`src/modules/entities/group.py` is not in the provided sources). -/
structure Group where
  name : String
  size : Int
  required_subjects : List (Nat × Subject)
deriving DecidableEq, Repr

/-- Modelled from the spec: the five week days of `TimeSlotDay`
(`src/modules/entities/time_slot.py` is not in the provided sources). -/
inductive TimeSlotDay where
  | MONDAY | TUESDAY | WEDNESDAY | THURSDAY | FRIDAY
deriving DecidableEq, Repr

/-- Modelled from the spec: the six periods of `TimeSlotTime`
(`src/modules/entities/time_slot.py` is not in the provided sources). -/
inductive TimeSlotTime where
  | FIRST | SECOND | THIRD | FOURTH | FIFTH | SIXTH
deriving DecidableEq, Repr

/-- Modelled from the spec: the integer `.value` of the period enum —
periods are 1…6, ordered (spec §3). -/
def TimeSlotTime.value : TimeSlotTime → Int
  | .FIRST => 1
  | .SECOND => 2
  | .THIRD => 3
  | .FOURTH => 4
  | .FIFTH => 5
  | .SIXTH => 6

/-- Modelled from the spec: `TimeSlot` — day × period value type
(`src/modules/entities/time_slot.py` is not in the provided sources). -/
structure TimeSlot where
  day : TimeSlotDay
  time : TimeSlotTime
deriving DecidableEq, Repr

/-- The `Session` record (`src/modules/entities/session.py`): room, group,
subject, teacher, time_slot, every field replaceable by assignment. -/
structure Session where
  room : Room
  group : Group
  subject : Subject
  teacher : Teacher
  time_slot : TimeSlot
deriving DecidableEq, Repr

instance : Inhabited Room := ⟨⟨0, 0⟩⟩

instance : Inhabited Teacher := ⟨⟨"", []⟩⟩

instance : Inhabited Session :=
  ⟨⟨⟨0, 0⟩, ⟨"", 0, []⟩, ⟨""⟩, ⟨"", []⟩, ⟨.MONDAY, .FIRST⟩⟩⟩

/-- The heap of `Session` objects; an index into it is a Python object
reference, so reference equality models Python `is`. -/
abbrev Store := List Session

/-- Model of `Schedule.sessions`: an ordered list of references into the heap.
The same reference may occur twice (an aliased session object). -/
abbrev Sched := List Nat

/-- Dereference: the `Session` object a reference points to. -/
def deref (store : Store) (p : Nat) : Session :=
  store.getD p default

/-- The day candidates list hard-coded in the generator
(`scheduler.py:152-158`). -/
def allDays : List TimeSlotDay :=
  [.MONDAY, .TUESDAY, .WEDNESDAY, .THURSDAY, .FRIDAY]

/-- The period candidates list hard-coded in the generator
(`scheduler.py:159-166`). -/
def allTimes : List TimeSlotTime :=
  [.FIRST, .SECOND, .THIRD, .FOURTH, .FIFTH, .SIXTH]

/-- One ordered pair of the checker's double loop
(`scheduler.py:66-75`): `true` when the pair raises no conflict.
`p1 = p2` models the `s1 is s2` identity skip —  two occurrences of the
same reference are the same object. -/
def pairNoConflict (store : Store) (p1 p2 : Nat) : Bool :=
  if p1 = p2 then true
  else
    let s1 := deref store p1
    let s2 := deref store p2
    if s1.time_slot.time ≠ s2.time_slot.time then true
    else if s1.time_slot.day ≠ s2.time_slot.day then true
    else
      ¬(s1.group.name = s2.group.name ∨ s1.room.identifier = s2.room.identifier ∨
        s1.teacher.fullname = s2.teacher.fullname)

/-- Model of `Scheduler._check_hard_constraints` (`scheduler.py:64-76`): scans all
ordered pairs of sessions, returns `False` on the first conflicting
pair, `True` otherwise. -/
def check_hard_constraints (store : Store) (sched : Sched) : Bool :=
  sched.all fun p1 => sched.all fun p2 => pairNoConflict store p1 p2

/-- Python `min` over a nonempty list of integers (`[]` gives 0,
unreachable: the code only calls it under `len(slots) > 1`). -/
def listMinZ : List Int → Int
  | [] => 0
  | x :: xs => xs.foldl min x

/-- Python `max` over a nonempty list of integers (`[]` gives 0,
unreachable: the code only calls it under `len(slots) > 1`). -/
def listMaxZ : List Int → Int
  | [] => 0
  | x :: xs => xs.foldl max x

/-- The contribution one day adds to `res` in
`Scheduler._calculate_windows_number` (`scheduler.py:118-122`):
`min`/`max` over the slots keyed by `s.time.value`, then
`(s1.time.value - s0.time.value) - len(slots) + 1` when the day has
more than one slot. -/
def dayWindows (time_slots : List TimeSlot) (day : TimeSlotDay) : Int :=
  let slots := time_slots.filter fun s => s.day = day
  if slots.length > 1 then
    (listMaxZ (slots.map fun s => s.time.value) -
      listMinZ (slots.map fun s => s.time.value)) - slots.length + 1
  else 0

/-- Model of `Scheduler._calculate_windows_number` (`scheduler.py:108-123`):
accumulate the per-day contributions over the five hard-coded days. -/
def calculate_windows_number (time_slots : List TimeSlot) : Int :=
  allDays.foldl (fun res day => res + dayWindows time_slots day) 0

/-- The session objects of a schedule in iteration order (an aliased
object appears once per occurrence of its reference, exactly as Python
iteration over `schedule.sessions` visits it). -/
def sessionsOf (store : Store) (sched : Sched) : List Session :=
  sched.map (deref store)

/-- The `set()` of group names built at `scheduler.py:81-84`, as a
deduplicated list. -/
def groupNames (store : Store) (sched : Sched) : List String :=
  ((sessionsOf store sched).map fun s => s.group.name).dedup

/-- The `set()` of teacher fullnames built at `scheduler.py:82-85`, as a
deduplicated list. -/
def teacherNames (store : Store) (sched : Sched) : List String :=
  ((sessionsOf store sched).map fun s => s.teacher.fullname).dedup

/-- The slots of one group's sessions (`scheduler.py:88-91`). -/
def groupSlots (store : Store) (sched : Sched) (g : String) : List TimeSlot :=
  ((sessionsOf store sched).filter fun s => s.group.name = g).map fun s => s.time_slot

/-- The slots of one teacher's sessions (`scheduler.py:95-98`). -/
def teacherSlots (store : Store) (sched : Sched) (t : String) : List TimeSlot :=
  ((sessionsOf store sched).filter fun s => s.teacher.fullname = t).map fun s => s.time_slot

/-- The `total_groups_windows` value of `Scheduler._get_score`
(`scheduler.py:86-92`). -/
def total_groups_windows (store : Store) (sched : Sched) : Int :=
  ((groupNames store sched).map fun g =>
    calculate_windows_number (groupSlots store sched g)).sum

/-- The `total_teachers_windows` value of `Scheduler._get_score`
(`scheduler.py:93-99`). -/
def total_teachers_windows (store : Store) (sched : Sched) : Int :=
  ((teacherNames store sched).map fun t =>
    calculate_windows_number (teacherSlots store sched t)).sum

/-- The `seats_lacking` value of `Scheduler._get_score` (`scheduler.py:102-104`):
sum over sessions of `max(group.size - room.capacity, 0)`. -/
def seats_lacking (store : Store) (sched : Sched) : Int :=
  ((sessionsOf store sched).map fun s => max (s.group.size - s.room.capacity) 0).sum

/-- Model of `Scheduler._get_score` (`scheduler.py:78-106`):
`1 / (1 + total_groups_windows + total_teachers_windows + seats_lacking)`,
exact rational arithmetic standing for the Python float division. -/
def get_score (store : Store) (sched : Sched) : Rat :=
  1 / (1 + ((total_groups_windows store sched + total_teachers_windows store sched +
    seats_lacking store sched : Int) : Rat))

/-- The interference test the generator applies to one already-placed
session against a candidate tuple (`scheduler.py:177-181`): the session
interferes iff it occupies the same day and time and it is *not* the
case that room, teacher and group all differ. -/
def sessionInterferes (s : Session) (group : Group) (teacher : Teacher) (room : Room)
    (day : TimeSlotDay) (time : TimeSlotTime) : Bool :=
  if ¬(s.time_slot.day = day ∧ s.time_slot.time = time) then false
  else if s.room.identifier ≠ room.identifier ∧ s.teacher.fullname ≠ teacher.fullname ∧
      s.group.name ≠ group.name then false
  else true

/-- The first already-placed session the inner loop at
`scheduler.py:176-182` breaks on (the loop variable `session` is left
bound to it), if any. -/
def firstInterfering (store : Store) (sched : Sched) (group : Group) (teacher : Teacher)
    (room : Room) (day : TimeSlotDay) (time : TimeSlotTime) : Option Nat :=
  sched.find? fun q => sessionInterferes (deref store q) group teacher room day time

/-- The generator's per-step conflict test: the candidate tuple
interferes with the schedule under construction iff some placed session
interferes (`scheduler.py:174-182`). -/
def interferes (store : Store) (sched : Sched) (group : Group) (teacher : Teacher)
    (room : Room) (day : TimeSlotDay) (time : TimeSlotTime) : Bool :=
  (firstInterfering store sched group teacher room day time).isSome

/-- Model of `Scheduler._all_combinations_helper` (`scheduler.py:193-201`)
instantiated at its only call site's four arguments: tuples in nested
order, teacher outermost, then room, then day, then time. -/
def all_combinations_helper (ts : List Teacher) (rs : List Room) (ds : List TimeSlotDay)
    (ps : List TimeSlotTime) : List (Teacher × Room × TimeSlotDay × TimeSlotTime) :=
  ts.flatMap fun t => rs.flatMap fun r => ds.flatMap fun d => ps.map fun p => (t, r, d, p)

/-- The possible values of the Python variable `session` inside one
instance placement (`scheduler.py:172-189`): still `None`, a leaked
reference to an already-placed session (left over from the inner loop
at line 176), or a freshly constructed `Session` (line 185). -/
inductive SessVar where
  | noneV
  | refV (p : Nat)
  | freshV (s : Session)

/-- The scan over the shuffled Cartesian product
(`scheduler.py:173-186`).  For each tuple: if some placed session
interferes, `session` is left bound to the first such session and the
scan continues (`continue` at line 184); otherwise a fresh `Session` is
built and the scan breaks (lines 185-186).  When the product is
exhausted, the final binding of `session` is returned — the leaked
reference from the last interfering tuple, not `None`, whenever any
tuple was tried against a nonempty schedule. -/
def scanCombos (store : Store) (sched : Sched) (group : Group) (subject : Subject) :
    List (Teacher × Room × TimeSlotDay × TimeSlotTime) → SessVar → SessVar
  | [], sv => sv
  | (t, r, d, p) :: rest, sv =>
    match firstInterfering store sched group t r d p with
    | some q => scanCombos store sched group subject rest (.refV q)
    | none =>
      let _ := sv
      .freshV ⟨r, group, subject, t, ⟨d, p⟩⟩

/-- The random shuffles drawn at `scheduler.py:168-171`, one quadruple
per session instance placed (indexed by the instance counter).  A run
of the Python program corresponds to oracle values that permute their
argument. -/
structure ShuffleRand where
  teachers : Nat → List Teacher → List Teacher
  rooms : Nat → List Room → List Room
  days : Nat → List TimeSlotDay → List TimeSlotDay
  times : Nat → List TimeSlotTime → List TimeSlotTime

/-- The identity shuffle outcome (one legitimate value of the random
shuffles: each list left in its given order). -/
def idShuffle : ShuffleRand :=
  ⟨fun _ l => l, fun _ l => l, fun _ l => l, fun _ l => l⟩

/-- Placement of one session instance (`scheduler.py:150-189`): build
candidate lists, shuffle, scan the product, then either fail the whole
attempt (`session is None`), append the leaked existing reference, or
allocate the fresh session and append its reference. -/
def placeInstance (sh : ShuffleRand) (teachers : List Teacher) (rooms : List Room)
    (group : Group) (subject : Subject) (k : Nat) (store : Store) (sched : Sched) :
    Option (Store × Sched) :=
  let teacher_candidates := teachers.filter fun t =>
    (t.teachable_subjects.map Subject.name).contains subject.name
  let combos := all_combinations_helper (sh.teachers k teacher_candidates)
    (sh.rooms k rooms) (sh.days k allDays) (sh.times k allTimes)
  match scanCombos store sched group subject combos .noneV with
  | .noneV => none
  | .refV q => some (store, sched ++ [q])
  | .freshV s => some (store ++ [s], sched ++ [store.length])

/-- The `for i in range(n_sessions)` loop (`scheduler.py:149`), threading
the heap, the sessions list and the instance counter. -/
def genInstances (sh : ShuffleRand) (teachers : List Teacher) (rooms : List Room)
    (group : Group) (subject : Subject) :
    Nat → Nat → Store → Sched → Option (Store × Sched × Nat)
  | 0, k, store, sched => some (store, sched, k)
  | n + 1, k, store, sched =>
    match placeInstance sh teachers rooms group subject k store sched with
    | none => none
    | some (store', sched') => genInstances sh teachers rooms group subject n (k + 1) store' sched'

/-- The `for n_sessions, subject in group.required_subjects` loop
(`scheduler.py:148`). -/
def genRequirements (sh : ShuffleRand) (teachers : List Teacher) (rooms : List Room)
    (group : Group) :
    List (Nat × Subject) → Nat → Store → Sched → Option (Store × Sched × Nat)
  | [], k, store, sched => some (store, sched, k)
  | (n, subject) :: rest, k, store, sched =>
    match genInstances sh teachers rooms group subject n k store sched with
    | none => none
    | some (store', sched', k') => genRequirements sh teachers rooms group rest k' store' sched'

/-- The `for group in groups` loop (`scheduler.py:147`). -/
def genGroups (sh : ShuffleRand) (teachers : List Teacher) (rooms : List Room) :
    List Group → Nat → Store → Sched → Option (Store × Sched × Nat)
  | [], k, store, sched => some (store, sched, k)
  | group :: rest, k, store, sched =>
    match genRequirements sh teachers rooms group group.required_subjects k store sched with
    | none => none
    | some (store', sched', k') => genGroups sh teachers rooms rest k' store' sched'

/-- Model of `Scheduler._try_generate_valid_schedule` (`scheduler.py:140-191`).
`Except.ok none` is the Python `return None`; the error value is the
`assert self._check_hard_constraints(schedule)` failing (line 190). -/
def try_generate_valid_schedule (sh : ShuffleRand) (groups : List Group)
    (rooms : List Room) (teachers : List Teacher) : Except String (Option (Store × Sched)) :=
  match genGroups sh teachers rooms groups 0 [] [] with
  | none => .ok none
  | some (store, sched, _) =>
    if check_hard_constraints store sched then .ok (some (store, sched))
    else .error ("AssertionError")

/-- The four mutation kinds of the local `MutationType` enum
(`scheduler.py:214-218`). -/
inductive MutationType where
  | CHANGE_TIME_SLOT | CHANGE_TEACHER | CHANGE_ROOM | SWAP
deriving DecidableEq, Repr

/-- The random draws one `_mutate` call makes (`scheduler.py:203-254`):
the outcome of `random.random() < self._mutation_probability`, the
mutation kind, and the index draws of the `random.choice` /
`random.choices` calls (each modelling the choice of one element of a
nonempty list, taken modulo its length). -/
structure MutateRand where
  skip : Bool
  kind : MutationType
  sessionIdx : Nat
  newDay : TimeSlotDay
  newTime : TimeSlotTime
  teacherIdx : Nat
  roomIdx : Nat
  swapIdx1 : Nat
  swapIdx2 : Nat

/-- Model of `random.choice(l)`: an element of `l`, selected by the oracle index
(modulo the length; `l` is nonempty wherever the program reaches the
call). -/
def listChoice [Inhabited α] (l : List α) (i : Nat) : α :=
  l.getD (i % l.length) default

/-- In-place attribute assignment on the session object `p` points to. -/
def storeWrite (store : Store) (p : Nat) (f : Session → Session) : Store :=
  store.set p (f (deref store p))

/-- Worker for `copy.deepcopy(schedule)` (`scheduler.py:212`): copy the
referenced session objects into fresh heap cells, the memo table making
two occurrences of the same reference map to the same fresh cell
(deepcopy preserves internal sharing). -/
def deepcopyAux (store : Store) : List Nat → Store → List (Nat × Nat) → Sched → Store × Sched
  | [], heap, _, acc => (heap, acc)
  | p :: rest, heap, memo, acc =>
    match memo.lookup p with
    | some q => deepcopyAux store rest heap memo (acc ++ [q])
    | none =>
      deepcopyAux store rest (heap ++ [deref store p]) ((p, heap.length) :: memo)
        (acc ++ [heap.length])

/-- Model of `copy.deepcopy(schedule)` (`scheduler.py:212`): the extended heap and
the copied schedule's reference list. -/
def deepcopySched (store : Store) (sched : Sched) : Store × Sched :=
  deepcopyAux store sched store [] []

/-- Model of `Scheduler._mutate` (`scheduler.py:203-254`).  With probability 0.3
the parent is returned as-is; otherwise the parent is deep-copied and
exactly one mutation kind is applied to the copy.  The `SWAP` branch is
the literal sequential overwrite of lines 248-250: indices `i1`, `i2`
are drawn by `random.choices(..., k=2)` (with replacement), session
`i2`'s slot is assigned session `i1`'s, and then session `i1`'s slot is
assigned session `i2`'s *already updated* slot. -/
def mutate (store : Store) (sched : Sched) (teachers : List Teacher) (rooms : List Room)
    (r : MutateRand) : Store × Sched :=
  if r.skip then (store, sched)
  else
    let cp := deepcopySched store sched
    let heap := cp.1
    let sessions := cp.2
    match r.kind with
    | .CHANGE_TIME_SLOT =>
      let p := listChoice sessions r.sessionIdx
      (storeWrite heap p fun s => { s with time_slot := ⟨r.newDay, r.newTime⟩ }, sessions)
    | .CHANGE_TEACHER =>
      let p := listChoice sessions r.sessionIdx
      let s := deref heap p
      let teacher_candidates := teachers.filter fun t =>
        (t.teachable_subjects.map Subject.name).contains s.subject.name
      (storeWrite heap p fun s0 => { s0 with teacher := listChoice teacher_candidates r.teacherIdx },
        sessions)
    | .CHANGE_ROOM =>
      let p := listChoice sessions r.sessionIdx
      (storeWrite heap p fun s0 => { s0 with room := listChoice rooms r.roomIdx }, sessions)
    | .SWAP =>
      let p1 := sessions.getD (r.swapIdx1 % sessions.length) 0
      let p2 := sessions.getD (r.swapIdx2 % sessions.length) 0
      let heap1 := storeWrite heap p2 fun s => { s with time_slot := (deref heap p1).time_slot }
      let heap2 := storeWrite heap1 p1 fun s => { s with time_slot := (deref heap1 p2).time_slot }
      (heap2, sessions)

/-- One individual of a population: its private heap and its schedule's
reference list (heaps of distinct individuals never share cells that
are later written, so per-individual heaps are faithful). -/
abbrev Ind := Store × Sched

/-- Model of `Scheduler._get_score` applied to an individual. -/
def get_score_ind (x : Ind) : Rat :=
  get_score x.1 x.2

/-- Model of `sorted(pool, reverse=True, key=self._get_score)`: Python's stable
descending sort by score. -/
def pySortDescByScore (l : List Ind) : List Ind :=
  l.mergeSort fun a b => get_score_ind b ≤ get_score_ind a

/-- A Python number: `int` or `float`.  `population_size * 0.2` at
`scheduler.py:49` is a `float`, and a `float` slice index is a
`TypeError`; exact rationals stand for float values (only the type tag
matters here). -/
inductive PyNum where
  | int (n : Int)
  | float (q : Rat)

/-- Python multiplication: any operand being `float` makes the result
`float`. -/
def PyNum.mul : PyNum → PyNum → PyNum
  | .int a, .int b => .int (a * b)
  | .int a, .float b => .float (a * b)
  | .float a, .int b => .float (a * b)
  | .float a, .float b => .float (a * b)

/-- Python list slicing `l[:i]`: an `int` bound takes a prefix (negative
bounds count from the end); a `float` bound raises `TypeError`. -/
def pySliceTo (l : List α) (i : PyNum) : Except String (List α) :=
  match i with
  | .int n => .ok (l.take (if 0 ≤ n then n.toNat else ((l.length : Int) + n).toNat))
  | .float _ => .error ("TypeError: slice indices must be integers or None or have an __index__ method")

/-- The GREEDY selection of `scheduler.py:47`: sort the merged pool
descending by score, truncate to `population_size`. -/
def greedySelect (population_size : Nat) (pool : List Ind) : List Ind :=
  (pySortDescByScore pool).take population_size

/-- The RAIN selection of `scheduler.py:49-50`:
`elite = sorted(pool, reverse=True, key=score)[:population_size * 0.2]`
— a float slice bound — then
`elite + random.choices(pool)[:population_size - len(elite)]`, where
`random.choices(pool)` draws a single element (default `k=1`). -/
def rainSelect (population_size : Nat) (pool : List Ind) (choiceIdx : Nat) :
    Except String (List Ind) :=
  match pySliceTo (pySortDescByScore pool)
      (PyNum.mul (.int population_size) (.float (1 / 5))) with
  | .error e => .error e
  | .ok elite =>
    let picks := [pool.getD (choiceIdx % pool.length) ([], [])]
    match pySliceTo picks (.int ((population_size : Int) - elite.length)) with
    | .error e => .error e
    | .ok fill => .ok (elite ++ fill)

/-- The `SelectionStrategy` enum (`scheduler.py:9-11`). -/
inductive SelectionStrategy where
  | GREEDY | RAIN
deriving DecidableEq, Repr

/-- The random draws of one breeding step inside a generation
(`scheduler.py:41-42`): the parent choice and the `_mutate` draws. -/
structure EvolveRand where
  parentIdx : Nat
  mutateDraws : MutateRand

/-- The `while len(new_population) < population_size` loop of
`scheduler.py:40-44`, with explicit fuel: `none` stands for the Python
loop still spinning after `fuel` iterations (it has no other exit). -/
def breedLoop (population_size : Nat) (teachers : List Teacher) (rooms : List Room)
    (population : List Ind) (rnd : Nat → EvolveRand) :
    Nat → Nat → List Ind → Option (List Ind)
  | 0, _, acc => none
  | fuel + 1, k, acc =>
    if acc.length < population_size then
      let er := rnd k
      let parent := population.getD (er.parentIdx % population.length) ([], [])
      let child := mutate parent.1 parent.2 teachers rooms er.mutateDraws
      breedLoop population_size teachers rooms population rnd fuel (k + 1)
        (if check_hard_constraints child.1 child.2 then acc ++ [child] else acc)
    else some acc

/-- The `for generation in range(self._n_generations)` loop of
`Scheduler.run` (`scheduler.py:38-61`): breed a new population, select,
re-sort, and update the best-ever schedule (the
`generations_without_improvement` counter is print-only and elided).
The first argument of the result is the remaining generation count. -/
def runLoop (population_size : Nat) (strategy : SelectionStrategy)
    (teachers : List Teacher) (rooms : List Room)
    (ernd : Nat → Nat → EvolveRand) (chRnd : Nat → Nat) (fuel : Nat) :
    Nat → Nat → List Ind → Ind → Except String Ind
  | 0, _, _, best => .ok best
  | g + 1, gi, population, best =>
    match breedLoop population_size teachers rooms population (ernd gi) fuel 0 [] with
    | none => .error ("NontermBudget")
    | some new_population =>
      let pool := population ++ new_population
      let sel : Except String (List Ind) :=
        match strategy with
        | .GREEDY => .ok (greedySelect population_size pool)
        | .RAIN => rainSelect population_size pool (chRnd gi)
      match sel with
      | .error e => .error e
      | .ok next =>
        let sortedPop := pySortDescByScore next
        let top := sortedPop.getD 0 ([], [])
        let best' := if get_score_ind best < get_score_ind top then top else best
        runLoop population_size strategy teachers rooms ernd chRnd fuel g (gi + 1) sortedPop best'

/-- The `while len(population) < size and attempts < size * 100` seeding
loop of `Scheduler._generate_initial_population` (`scheduler.py:131-138`),
with `fuel = budget − attempts`; the oracle `gen` gives the outcome of
each `_try_generate_valid_schedule()` invocation. -/
def seedAux (population_size : Nat) (gen : Nat → Option Ind) :
    Nat → Nat → List Ind → List Ind
  | 0, _, population => population
  | fuel + 1, attempts, population =>
    if population.length < population_size then
      match gen attempts with
      | some s => seedAux population_size gen fuel (attempts + 1) (population ++ [s])
      | none => seedAux population_size gen fuel (attempts + 1) population
    else population

/-- Model of `Scheduler._generate_initial_population` (`scheduler.py:125-138`). -/
def generate_initial_population (population_size : Nat) (gen : Nat → Option Ind) : List Ind :=
  seedAux population_size gen (population_size * 100) 0 []

/-- Model of `Scheduler.run` (`scheduler.py:27-62`): seed the population, then
`assert len(population) > 0` (the error value is that `AssertionError`),
then evolve for `n_generations` generations and return the best-ever
schedule. -/
def run (population_size n_generations : Nat) (strategy : SelectionStrategy)
    (gen : Nat → Option Ind) (ernd : Nat → Nat → EvolveRand) (chRnd : Nat → Nat)
    (teachers : List Teacher) (rooms : List Room) (fuel : Nat) : Except String Ind :=
  let population := generate_initial_population population_size gen
  if population.length = 0 then .error ("AssertionError: Empty initial population")
  else
    runLoop population_size strategy teachers rooms ernd chRnd fuel n_generations 0
      population (population.getD 0 ([], []))

instance {ε α : Type} [DecidableEq ε] [DecidableEq α] : DecidableEq (Except ε α) :=
  fun a b =>
  match a, b with
  | .ok x, .ok y =>
    if h : x = y then isTrue (by rw [h]) else isFalse (by simp [h])
  | .error e, .error f =>
    if h : e = f then isTrue (by rw [h]) else isFalse (by simp [h])
  | .ok _, .error _ => isFalse (by simp)
  | .error _, .ok _ => isFalse (by simp)

/-- Whether a generator call returned a schedule (Python: a non-`None`
return with the assertion passing). -/
def genSucceeded (r : Except String (Option (Store × Sched))) : Bool :=
  match r with
  | .ok (some _) => true
  | _ => false

/-- The heap and reference list of a successful generator call (dummy
empty values otherwise). -/
def genOutput (r : Except String (Option (Store × Sched))) : Store × Sched :=
  match r with
  | .ok (some x) => x
  | _ => ([], [])

/-- The number of sessions of a schedule carrying the given group name
and subject name (the count the requirement-completeness invariant
speaks about). -/
def countGroupSubject (store : Store) (sched : Sched) (g subj : String) : Nat :=
  ((sessionsOf store sched).filter fun s => s.group.name == g && s.subject.name == subj).length

/-- A subject for concrete instances. -/
def mathS : Subject := ⟨"m"⟩

/-- A second subject for concrete instances. -/
def physS : Subject := ⟨"p"⟩

/-- A teacher able to teach both concrete subjects. -/
def teacherT : Teacher := ⟨"T", [mathS, physS]⟩

/-- A room for concrete instances. -/
def room1 : Room := ⟨1, 20⟩

/-- A group requiring 31 sessions of one subject: one more than the 30
day × period slots, so the 31st placement exhausts its Cartesian
product. -/
def groupA31 : Group := ⟨"A", 10, [(31, mathS)]⟩

/-- The generator run on the 31-session roster (single room, single
teacher); every shuffle is taken as the identity permutation, one
legitimate outcome of `random.shuffle`. -/
def gen1result : Except String (Option (Store × Sched)) :=
  try_generate_valid_schedule idShuffle [groupA31] [room1] [teacherT]

/-- A group requiring 30 sessions of one subject — exactly filling the
5 × 6 grid when it is alone on the roster's room and teacher. -/
def groupA30 : Group := ⟨"A", 10, [(30, mathS)]⟩

/-- A group requiring a single session of the second subject. -/
def groupB1 : Group := ⟨"B", 10, [(1, physS)]⟩

/-- The generator run on the roster where the second group's single
session has no free slot left. -/
def gen2result : Except String (Option (Store × Sched)) :=
  try_generate_valid_schedule idShuffle [groupA30, groupB1] [room1] [teacherT]

/-- A heap of 30 sessions of one group/teacher/room covering all 30
day × period slots. -/
def store30 : Store :=
  (List.range 30).map fun i =>
    ⟨room1, groupA31, mathS, teacherT,
      ⟨allDays.getD (i / 6) .MONDAY, allTimes.getD (i % 6) .FIRST⟩⟩

/-- The schedule referencing each of the 30 sessions of `store30` once. -/
def sched30 : Sched := List.range 30

/-- A two-session parent heap with slots (MONDAY, FIRST) and
(MONDAY, SECOND). -/
def swapStore : Store :=
  [⟨room1, groupA31, mathS, teacherT, ⟨.MONDAY, .FIRST⟩⟩,
   ⟨room1, groupA31, mathS, teacherT, ⟨.MONDAY, .SECOND⟩⟩]

/-- Mutation draws selecting the SWAP kind on sessions 0 and 1, skip
draw false. -/
def swapDraws : MutateRand := ⟨false, .SWAP, 0, .MONDAY, .FIRST, 0, 0, 0, 1⟩

/-- The SWAP mutation applied to the two-session parent. -/
def swapResult : Store × Sched :=
  mutate swapStore [0, 1] [teacherT] [room1] swapDraws

/-- A single valid individual used to seed populations in concrete
runs. -/
def seedInd : Ind := ([⟨room1, groupA31, mathS, teacherT, ⟨.MONDAY, .FIRST⟩⟩], [0])

/-- A generator-outcome oracle whose first invocation succeeds and whose
remaining 199 invocations of the budget all fail. -/
def oneSuccess : Nat → Option Ind :=
  fun i => if i = 0 then some seedInd else none

/-- Mutation draws whose skip draw is true (`random.random()` fell below
the mutation probability). -/
def skipDraws : MutateRand := ⟨true, .SWAP, 0, .MONDAY, .FIRST, 0, 0, 0, 0⟩

/-- Breeding-step draws that always pick parent 0 and skip mutation. -/
def idleEvolve : Nat → Nat → EvolveRand := fun _ _ => ⟨0, skipDraws⟩

/-- A heap whose two sessions put the same group and teacher twice into
the same day and period (in two different rooms). -/
def clashStore : Store :=
  [⟨room1, groupA31, mathS, teacherT, ⟨.MONDAY, .FIRST⟩⟩,
   ⟨⟨2, 20⟩, groupA31, mathS, teacherT, ⟨.MONDAY, .FIRST⟩⟩]

/-- The conflict relation of the specification between two session
objects: same (day, period) and shared room identifier, teacher
fullname, or group name. -/
def conflicting (s1 s2 : Session) : Prop :=
  (s1.time_slot.day = s2.time_slot.day ∧ s1.time_slot.time = s2.time_slot.time) ∧
  (s1.room.identifier = s2.room.identifier ∨ s1.teacher.fullname = s2.teacher.fullname ∨
    s1.group.name = s2.group.name)

/-- C1.  The claim states every schedule returned by
`_try_generate_valid_schedule` satisfies, for all pairs of sessions at
distinct positions i ≠ j, not (same day and period and (same room or
same teacher or same group)).  It is false: on the roster with one
group requiring 31 sessions of one subject, one teacher and one room,
the generator returns a 31-session schedule whose positions 29 and 30
hold the same aliased session — same day, period, room, teacher and
group — because the loop variable `session` leaks out of the inner
conflict loop once the candidate product is exhausted
(`scheduler.py:176-189`), and the `is`-based checker skips the alias
pair. -/
theorem c1_generator_returns_conflicting_pair :
    genSucceeded gen1result = true ∧
    (genOutput gen1result).2.length = 31 ∧
    ((sessionsOf (genOutput gen1result).1 (genOutput gen1result).2).getD 29 default).time_slot.day
      = ((sessionsOf (genOutput gen1result).1 (genOutput gen1result).2).getD 30 default).time_slot.day ∧
    ((sessionsOf (genOutput gen1result).1 (genOutput gen1result).2).getD 29 default).time_slot.time
      = ((sessionsOf (genOutput gen1result).1 (genOutput gen1result).2).getD 30 default).time_slot.time ∧
    ((sessionsOf (genOutput gen1result).1 (genOutput gen1result).2).getD 29 default).room.identifier
      = ((sessionsOf (genOutput gen1result).1 (genOutput gen1result).2).getD 30 default).room.identifier ∧
    ((sessionsOf (genOutput gen1result).1 (genOutput gen1result).2).getD 29 default).teacher.fullname
      = ((sessionsOf (genOutput gen1result).1 (genOutput gen1result).2).getD 30 default).teacher.fullname ∧
    ((sessionsOf (genOutput gen1result).1 (genOutput gen1result).2).getD 29 default).group.name
      = ((sessionsOf (genOutput gen1result).1 (genOutput gen1result).2).getD 30 default).group.name := by
  decide

/-- C2.  The claim states that when the shuffled Cartesian product for a
session instance contains no conflict-free tuple, the whole attempt
returns `None` and no session is appended.  It is false: on a schedule
of 30 sessions filling every day × period slot (one room, one teacher),
every tuple of the product interferes, yet `placeInstance` succeeds and
appends a reference to the already-placed session 29 — the leaked
`session` loop variable is not `None` at `scheduler.py:187`. -/
theorem c2_exhausted_product_still_appends :
    (all_combinations_helper [teacherT] [room1] allDays allTimes).all
      (fun c => interferes store30 sched30 groupA31 c.1 c.2.1 c.2.2.1 c.2.2.2) = true ∧
    placeInstance idShuffle [teacherT] [room1] groupA31 mathS 0 store30 sched30
      = some (store30, sched30 ++ [29]) ∧
    (29 : Nat) ∈ sched30 := by
  decide

/-- C3.  The claim states that after a SWAP mutation sessions i and j
exchange their pre-mutation time slots and never end up with identical
slots unless they started equal.  It is false: on a parent whose
sessions 0 and 1 hold (MONDAY, FIRST) and (MONDAY, SECOND), the
sequential overwrite of `scheduler.py:249-250` leaves *both* sessions at
(MONDAY, FIRST), session 0 not receiving session 1's pre-mutation
slot. -/
theorem c3_swap_collapses_slots :
    (deref swapStore 0).time_slot ≠ (deref swapStore 1).time_slot ∧
    (deref swapResult.1 (swapResult.2.getD 0 0)).time_slot = ⟨.MONDAY, .FIRST⟩ ∧
    (deref swapResult.1 (swapResult.2.getD 1 0)).time_slot = ⟨.MONDAY, .FIRST⟩ ∧
    (deref swapResult.1 (swapResult.2.getD 0 0)).time_slot ≠ (deref swapStore 1).time_slot := by
  decide

/-- C6.  The claim states that every schedule accepted as a generator
success has, for every group and every (required_count, subject)
requirement, exactly required_count matching sessions.  It is false: on
the roster where group A's 30 sessions fill the whole grid and group B
requires one session of subject p, the generator still succeeds (the
exhaustion bug appends an aliased session of group A instead of
failing) and the returned schedule contains zero sessions of group B
and subject p instead of one. -/
theorem c6_requirement_count_violated :
    genSucceeded gen2result = true ∧
    groupB1.required_subjects = [(1, physS)] ∧
    countGroupSubject (genOutput gen2result).1 (genOutput gen2result).2 ("B") ("p") = 0 := by
  decide

/-- C4.  The claim states RAIN selection produces exactly
population_size individuals, with floor(population_size × 0.2) elite
members and the rest sampled with replacement.  It is false for every
pool and every population size: `population_size * 0.2` at
`scheduler.py:49` is a Python float, and a float slice index raises
`TypeError`, so the RAIN branch never produces a next generation at
all (and even absent that, `random.choices(...)` at line 50 draws a
single element, not `population_size − len(elite)` of them). -/
theorem c4_rain_selection_raises_typeerror :
    ∀ (population_size : Nat) (pool : List Ind) (choiceIdx : Nat),
      rainSelect population_size pool choiceIdx
        = .error ("TypeError: slice indices must be integers or None or have an __index__ method") := by
  intro population_size pool choiceIdx
  rfl

/-- C5, counterexample.  The claim states that a seeding phase that
exhausts its budget of population_size × 100 attempts with fewer than
population_size individuals makes `run` abort with
`InfeasibleProblemError` and return no result.  It is false: with
population_size = 2 and a generator oracle succeeding exactly once in
the 200 attempts, seeding ends with a single individual, the
`assert len(population) > 0` passes, and `run` (0 generations) returns
that schedule instead of aborting. -/
theorem c5_undersized_population_not_fatal :
    (generate_initial_population 2 oneSuccess).length = 1 ∧
    run 2 0 .GREEDY oneSuccess idleEvolve (fun _ => 0) [teacherT] [room1] 0
      = .ok seedInd := by
  decide

/-- C7, counterexample.  The claim states
`score = 1 / (1 + group_windows + teacher_windows + seats_lacking)`
lies in (0, 1] for every schedule, the denominator never zero or
negative.  It is false: on a two-session schedule putting the same
group and teacher twice into (MONDAY, FIRST), each windows term is
(1 − 1) − 2 + 1 = −1, the denominator is 1 − 2 = −1, and the score is
−1. -/
theorem c7_score_escapes_unit_interval :
    total_groups_windows clashStore [0, 1] = -1 ∧
    total_teachers_windows clashStore [0, 1] = -1 ∧
    seats_lacking clashStore [0, 1] = 0 ∧
    get_score clashStore [0, 1] = -1 ∧
    ¬ (0 < get_score clashStore [0, 1]) := by
  have h1 : total_groups_windows clashStore [0, 1] = -1 := by decide
  have h2 : total_teachers_windows clashStore [0, 1] = -1 := by decide
  have h3 : seats_lacking clashStore [0, 1] = 0 := by decide
  have h4 : get_score clashStore [0, 1] = -1 := by
    unfold get_score
    rw [h1, h2, h3]
    norm_num
  exact ⟨h1, h2, h3, h4, by rw [h4]; norm_num⟩

/-- Each per-day accumulation step of `_calculate_windows_number` equals
the spec formula for that day: with at least 2 slots the day adds
(max period − min period) − (number of slots) + 1, with 0 or 1 slots it
adds 0. -/
theorem dayWindows_eq_spec (time_slots : List TimeSlot) (day : TimeSlotDay) :
    dayWindows time_slots day =
      (if 2 ≤ (time_slots.filter fun s => s.day = day).length then
        (listMaxZ ((time_slots.filter fun s => s.day = day).map fun s => s.time.value) -
          listMinZ ((time_slots.filter fun s => s.day = day).map fun s => s.time.value)) -
          ((time_slots.filter fun s => s.day = day).length : Int) + 1
      else 0) := by
  unfold dayWindows
  dsimp only
  split_ifs with h1 h2 <;> first | rfl | omega

/-- C8.  Window arithmetic: `_calculate_windows_number` partitions the
slots over the five days and, for each day with at least 2 slots, adds
(max period − min period) − (number of that day's slots) + 1, while
days with 0 or 1 slot contribute 0; periods {1,3} on one day give 1,
periods {1,2,3} give 0, and a single slot gives 0. -/
theorem c8_window_arithmetic :
    (∀ time_slots : List TimeSlot,
      calculate_windows_number time_slots =
        (allDays.map fun day =>
          if 2 ≤ (time_slots.filter fun s => s.day = day).length then
            (listMaxZ ((time_slots.filter fun s => s.day = day).map fun s => s.time.value) -
              listMinZ ((time_slots.filter fun s => s.day = day).map fun s => s.time.value)) -
              ((time_slots.filter fun s => s.day = day).length : Int) + 1
          else 0).sum) ∧
    calculate_windows_number [⟨.MONDAY, .FIRST⟩, ⟨.MONDAY, .THIRD⟩] = 1 ∧
    calculate_windows_number
      [⟨.MONDAY, .FIRST⟩, ⟨.MONDAY, .SECOND⟩, ⟨.MONDAY, .THIRD⟩] = 0 ∧
    (∀ s : TimeSlot, calculate_windows_number [s] = 0) := by
  refine ⟨?_, by decide, by decide, ?_⟩
  · intro ts
    simp only [calculate_windows_number, allDays, List.foldl_cons, List.foldl_nil,
      List.map_cons, List.map_nil, List.sum_cons, List.sum_nil, dayWindows_eq_spec]
    ring
  · intro s
    obtain ⟨d, t⟩ := s
    cases d <;> cases t <;> decide

theorem conflicting_symm {s1 s2 : Session} (h : conflicting s1 s2) : conflicting s2 s1 := by
  obtain ⟨⟨hd, ht⟩, h⟩ := h
  refine ⟨⟨hd.symm, ht.symm⟩, ?_⟩
  rcases h with h | h | h
  · exact Or.inl h.symm
  · exact Or.inr (Or.inl h.symm)
  · exact Or.inr (Or.inr h.symm)

theorem pairNoConflict_iff (store : Store) (p1 p2 : Nat) :
    pairNoConflict store p1 p2 = true ↔
      p1 = p2 ∨ ¬ conflicting (deref store p1) (deref store p2) := by
  unfold pairNoConflict conflicting
  dsimp only
  split_ifs with h1 h2 h3 <;> simp_all <;> tauto

theorem sessionInterferes_iff (s' s : Session) :
    sessionInterferes s' s.group s.teacher s.room s.time_slot.day s.time_slot.time = true ↔
      conflicting s' s := by
  unfold sessionInterferes conflicting
  split_ifs with h1 h2 <;> simp_all <;> tauto

theorem check_iff (store : Store) (sched : Sched) :
    check_hard_constraints store sched = true ↔
      ∀ p1 ∈ sched, ∀ p2 ∈ sched,
        p1 = p2 ∨ ¬ conflicting (deref store p1) (deref store p2) := by
  unfold check_hard_constraints
  simp [pairNoConflict_iff]

theorem interferes_eq_false_iff (store : Store) (sched : Sched) (s : Session) :
    interferes store sched s.group s.teacher s.room s.time_slot.day s.time_slot.time = false ↔
      ∀ q ∈ sched, ¬ conflicting (deref store q) s := by
  unfold interferes firstInterfering
  simp [List.find?_eq_none, sessionInterferes_iff]

theorem deref_append_lt (store : Store) (s : Session) (q : Nat) (h : q < store.length) :
    deref (store ++ [s]) q = deref store q := by
  unfold deref
  exact List.getD_append _ _ _ _ h

theorem deref_append_self (store : Store) (s : Session) :
    deref (store ++ [s]) store.length = s := by
  unfold deref
  rw [List.getD_append_right _ _ _ _ (le_refl _)]
  simp

/-- C9.  Checker/generator conflict-test equivalence: for every schedule
passing `_check_hard_constraints` and every fresh candidate session
(one allocated at a reference no existing session aliases), the
generator's per-step interference test reports no interference iff
the checker accepts the schedule with the fresh session appended. -/
theorem c9_conflict_test_equivalence (store : Store) (sched : Sched) (group : Group)
    (teacher : Teacher) (room : Room) (subject : Subject) (day : TimeSlotDay)
    (time : TimeSlotTime)
    (hvalid : ∀ q ∈ sched, q < store.length)
    (hok : check_hard_constraints store sched = true) :
    (interferes store sched group teacher room day time = false ↔
      check_hard_constraints (store ++ [⟨room, group, subject, teacher, ⟨day, time⟩⟩])
        (sched ++ [store.length]) = true) := by
  have hs : (interferes store sched group teacher room day time = false) =
      (interferes store sched (⟨room, group, subject, teacher, ⟨day, time⟩⟩ : Session).group
        (⟨room, group, subject, teacher, ⟨day, time⟩⟩ : Session).teacher
        (⟨room, group, subject, teacher, ⟨day, time⟩⟩ : Session).room
        (⟨room, group, subject, teacher, ⟨day, time⟩⟩ : Session).time_slot.day
        (⟨room, group, subject, teacher, ⟨day, time⟩⟩ : Session).time_slot.time = false) := rfl
  rw [hs, interferes_eq_false_iff, check_iff]
  rw [check_iff] at hok
  constructor
  · intro hno p1 hp1 p2 hp2
    rcases List.mem_append.mp hp1 with hp1 | hp1 <;>
      rcases List.mem_append.mp hp2 with hp2 | hp2
    · rw [deref_append_lt _ _ _ (hvalid _ hp1), deref_append_lt _ _ _ (hvalid _ hp2)]
      exact hok p1 hp1 p2 hp2
    · rw [List.mem_singleton.mp hp2, deref_append_lt _ _ _ (hvalid _ hp1), deref_append_self]
      exact Or.inr (hno p1 hp1)
    · rw [List.mem_singleton.mp hp1, deref_append_lt _ _ _ (hvalid _ hp2), deref_append_self]
      exact Or.inr (fun hc => hno p2 hp2 (conflicting_symm hc))
    · rw [List.mem_singleton.mp hp1, List.mem_singleton.mp hp2]
      exact Or.inl rfl
  · intro hall q hq
    have h := hall q (List.mem_append.mpr (Or.inl hq))
      store.length (List.mem_append.mpr (Or.inr (List.mem_singleton.mpr rfl)))
    rw [deref_append_lt _ _ _ (hvalid _ hq), deref_append_self] at h
    rcases h with h | h
    · exact absurd h (Nat.ne_of_lt (hvalid _ hq))
    · exact h

theorem mem_of_lookup_eq_some {memo : List (Nat × Nat)} {p q : Nat}
    (h : memo.lookup p = some q) : (p, q) ∈ memo := by
  induction memo with
  | nil => simp [List.lookup] at h
  | cons a tl ih =>
    obtain ⟨k, v⟩ := a
    rw [List.lookup_cons] at h
    by_cases hk : (p == k) = true
    · rw [hk] at h
      cases h
      have : p = k := by simpa using hk
      rw [this]
      exact List.mem_cons_self _ _
    · rw [Bool.not_eq_true] at hk
      rw [hk] at h
      exact List.mem_cons_of_mem _ (ih h)

theorem deref_set_ne (store : Store) (p q : Nat) (v : Session) (h : p ≠ q) :
    deref (store.set p v) q = deref store q := by
  unfold deref
  rw [List.getD_eq_getElem?_getD, List.getD_eq_getElem?_getD, List.getElem?_set_ne h]

theorem storeWrite_preserves (store : Store) (p q : Nat) (f : Session → Session)
    (h : p ≠ q) : deref (storeWrite store p f) q = deref store q := by
  unfold storeWrite
  exact deref_set_ne _ _ _ _ h

theorem listChoice_mem [Inhabited α] (l : List α) (i : Nat) (h : l ≠ []) :
    listChoice l i ∈ l := by
  unfold listChoice
  have hlen : 0 < l.length := List.length_pos.mpr h
  have hm : i % l.length < l.length := Nat.mod_lt _ hlen
  rw [List.getD_eq_getElem?_getD, List.getElem?_eq_getElem hm]
  exact List.getElem_mem hm

theorem getD_zero_mem (l : List Nat) (i : Nat) (h : l ≠ []) :
    l.getD (i % l.length) 0 ∈ l := by
  have hlen : 0 < l.length := List.length_pos.mpr h
  have hm : i % l.length < l.length := Nat.mod_lt _ hlen
  rw [List.getD_eq_getElem?_getD, List.getElem?_eq_getElem hm]
  exact List.getElem_mem hm

theorem deepcopyAux_spec (store : Store) (ps : List Nat) :
    ∀ (heap : Store) (memo : List (Nat × Nat)) (acc : Sched),
      store.length ≤ heap.length →
      (∀ q, q < store.length → deref heap q = deref store q) →
      (∀ pr ∈ memo, store.length ≤ pr.2) →
      (∀ x ∈ acc, store.length ≤ x) →
      store.length ≤ (deepcopyAux store ps heap memo acc).1.length ∧
      (∀ q, q < store.length → deref (deepcopyAux store ps heap memo acc).1 q = deref store q) ∧
      (∀ x ∈ (deepcopyAux store ps heap memo acc).2, store.length ≤ x) := by
  induction ps with
  | nil =>
    intro heap memo acc h1 h2 h3 h4
    exact ⟨h1, h2, h4⟩
  | cons p rest ih =>
    intro heap memo acc h1 h2 h3 h4
    cases hl : memo.lookup p with
    | some q =>
      rw [deepcopyAux, hl]
      refine ih heap memo (acc ++ [q]) h1 h2 h3 ?_
      intro x hx
      rcases List.mem_append.mp hx with hx | hx
      · exact h4 x hx
      · rw [List.mem_singleton.mp hx]
        exact h3 _ (mem_of_lookup_eq_some hl)
    | none =>
      rw [deepcopyAux, hl]
      refine ih _ _ _ (le_trans h1 (by simp)) ?_ ?_ ?_
      · intro q hq
        rw [deref_append_lt _ _ _ (lt_of_lt_of_le hq h1)]
        exact h2 q hq
      · intro pr hpr
        rcases List.mem_cons.mp hpr with hpr | hpr
        · rw [hpr]
          exact h1
        · exact h3 _ hpr
      · intro x hx
        rcases List.mem_append.mp hx with hx | hx
        · exact h4 x hx
        · rw [List.mem_singleton.mp hx]
          exact h1

theorem deepcopyAux_length (store : Store) (ps : List Nat) :
    ∀ (heap : Store) (memo : List (Nat × Nat)) (acc : Sched),
      (deepcopyAux store ps heap memo acc).2.length = acc.length + ps.length := by
  induction ps with
  | nil =>
    intro heap memo acc
    simp [deepcopyAux]
  | cons p rest ih =>
    intro heap memo acc
    cases hl : memo.lookup p with
    | some q =>
      rw [deepcopyAux, hl, ih]
      simp
      omega
    | none =>
      rw [deepcopyAux, hl, ih]
      simp
      omega

theorem deepcopySched_spec (store : Store) (sched : Sched) :
    (∀ q, q < store.length → deref (deepcopySched store sched).1 q = deref store q) ∧
    (∀ x ∈ (deepcopySched store sched).2, store.length ≤ x) ∧
    (deepcopySched store sched).2.length = sched.length := by
  unfold deepcopySched
  obtain ⟨h1, h2, h3⟩ := deepcopyAux_spec store sched store [] []
    (le_refl _) (fun q _ => rfl) (by intro pr hpr; simp at hpr) (by intro x hx; simp at hx)
  refine ⟨h2, h3, ?_⟩
  rw [deepcopyAux_length]
  simp

/-- C10.  Mutation leaves the parent unchanged: whatever the random
draws, `_mutate` never modifies a session object of the parent schedule
(every mutation kind writes only to the fresh cells allocated by
`copy.deepcopy`), and in the skip branch the parent is returned as-is. -/
theorem c10_mutate_never_modifies_parent (store : Store) (sched : Sched)
    (teachers : List Teacher) (rooms : List Room) (r : MutateRand)
    (hvalid : ∀ q ∈ sched, q < store.length) :
    (∀ q ∈ sched, deref (mutate store sched teachers rooms r).1 q = deref store q) ∧
    (r.skip = true → mutate store sched teachers rooms r = (store, sched)) := by
  obtain ⟨skip, kind, sIdx, nDay, nTime, tIdx, rIdx, w1, w2⟩ := r
  cases skip with
  | true => exact ⟨fun q _ => by simp [mutate], by intro _; simp [mutate]⟩
  | false =>
    refine ⟨?_, by intro h; cases h⟩
    intro q hq
    have hqlt := hvalid q hq
    have hsne : sched ≠ [] := by
      intro h
      rw [h] at hq
      exact absurd hq (List.not_mem_nil q)
    obtain ⟨hderef, hfresh, hlen⟩ := deepcopySched_spec store sched
    have hcne : (deepcopySched store sched).2 ≠ [] := by
      intro h
      rw [h] at hlen
      exact hsne (List.length_eq_zero.mp hlen.symm)
    have hne_of_mem : ∀ p ∈ (deepcopySched store sched).2, p ≠ q :=
      fun p hp => Nat.ne_of_gt (lt_of_lt_of_le hqlt (hfresh p hp))
    rw [mutate]
    dsimp only
    rw [if_neg (by decide : ¬ (false = true))]
    cases kind with
    | CHANGE_TIME_SLOT =>
      dsimp only
      rw [storeWrite_preserves _ _ _ _ (hne_of_mem _ (listChoice_mem _ _ hcne))]
      exact hderef q hqlt
    | CHANGE_TEACHER =>
      dsimp only
      rw [storeWrite_preserves _ _ _ _ (hne_of_mem _ (listChoice_mem _ _ hcne))]
      exact hderef q hqlt
    | CHANGE_ROOM =>
      dsimp only
      rw [storeWrite_preserves _ _ _ _ (hne_of_mem _ (listChoice_mem _ _ hcne))]
      exact hderef q hqlt
    | SWAP =>
      dsimp only
      rw [storeWrite_preserves _ _ _ _ (hne_of_mem _ (getD_zero_mem _ _ hcne)),
        storeWrite_preserves _ _ _ _ (hne_of_mem _ (getD_zero_mem _ _ hcne))]
      exact hderef q hqlt

/-- Witness for C9: the equivalence applied to a concrete one-session
schedule and a concrete fresh non-conflicting candidate. -/
theorem c9_conflict_test_equivalence_witness :
    (interferes swapStore [0] groupA31 teacherT room1 .MONDAY .SECOND = false ↔
      check_hard_constraints
        (swapStore ++ [⟨room1, groupA31, mathS, teacherT, ⟨.MONDAY, .SECOND⟩⟩])
        ([0] ++ [swapStore.length]) = true) :=
  c9_conflict_test_equivalence swapStore [0] groupA31 teacherT room1 mathS .MONDAY .SECOND
    (by decide) (by decide)

/-- Witness for C10: the frame property applied to a concrete two-session
parent and the concrete SWAP draws. -/
theorem c10_mutate_never_modifies_parent_witness :
    (∀ q ∈ [0, 1], deref (mutate swapStore [0, 1] [teacherT] [room1] swapDraws).1 q
      = deref swapStore q) ∧
    (swapDraws.skip = true →
      mutate swapStore [0, 1] [teacherT] [room1] swapDraws = (swapStore, [0, 1])) :=
  c10_mutate_never_modifies_parent swapStore [0, 1] [teacherT] [room1] swapDraws (by decide)

theorem seedAux_all_none (population_size : Nat) (gen : Nat → Option Ind)
    (hnone : ∀ i, gen i = none) :
    ∀ (fuel attempts : Nat) (pop : List Ind),
      seedAux population_size gen fuel attempts pop = pop := by
  intro fuel
  induction fuel with
  | zero => intro attempts pop; rfl
  | succ f ih =>
    intro attempts pop
    rw [seedAux, hnone]
    by_cases h : pop.length < population_size
    · rw [if_pos h]
      exact ih (attempts + 1) pop
    · rw [if_neg h]

theorem seedAux_length_mono (population_size : Nat) (gen : Nat → Option Ind) :
    ∀ (fuel attempts : Nat) (pop : List Ind),
      pop.length ≤ (seedAux population_size gen fuel attempts pop).length := by
  intro fuel
  induction fuel with
  | zero => intro _ _; exact le_refl _
  | succ f ih =>
    intro attempts pop
    rw [seedAux]
    by_cases h : pop.length < population_size
    · rw [if_pos h]
      cases hg : gen attempts with
      | some s =>
        calc pop.length ≤ (pop ++ [s]).length := by simp
          _ ≤ _ := ih (attempts + 1) (pop ++ [s])
      | none => exact ih (attempts + 1) pop
    · rw [if_neg h]

theorem generate_initial_population_all_none (population_size : Nat)
    (gen : Nat → Option Ind) (hnone : ∀ i, gen i = none) :
    generate_initial_population population_size gen = [] :=
  seedAux_all_none population_size gen hnone _ _ _

theorem generate_initial_population_nonempty (population_size : Nat)
    (gen : Nat → Option Ind) (x : Ind) (hx : gen 0 = some x) (hpos : 0 < population_size) :
    (generate_initial_population population_size gen).length ≠ 0 := by
  unfold generate_initial_population
  have hfuel : population_size * 100 = (population_size * 100 - 1) + 1 := by omega
  rw [hfuel, seedAux]
  rw [if_pos (by simpa using hpos)]
  rw [hx]
  have hm := seedAux_length_mono population_size gen (population_size * 100 - 1) (0 + 1)
    ([] ++ [x])
  intro h0
  rw [h0] at hm
  simp at hm

/-- C5, amended.  The claim as the code has it: if the seeding budget of
population_size × 100 generator invocations is exhausted with *zero*
valid individuals, `run` aborts with the `AssertionError` of
`scheduler.py:34` (no `InfeasibleProblemError` exists in the code); but
if at least one individual was collected, `run` does not abort — shown
for 0 configured generations, it returns the best of the (possibly
undersized) population instead of aborting. -/
theorem c5_seeding_failure_semantics (population_size : Nat) (strategy : SelectionStrategy)
    (gen : Nat → Option Ind) (ernd : Nat → Nat → EvolveRand) (chRnd : Nat → Nat)
    (teachers : List Teacher) (rooms : List Room) (fuel n_generations : Nat) :
    ((∀ i, gen i = none) →
      run population_size n_generations strategy gen ernd chRnd teachers rooms fuel
        = .error ("AssertionError: Empty initial population")) ∧
    (∀ x, gen 0 = some x → 0 < population_size →
      run population_size 0 strategy gen ernd chRnd teachers rooms fuel
        = .ok ((generate_initial_population population_size gen).getD 0 ([], []))) := by
  constructor
  · intro hnone
    unfold run
    rw [generate_initial_population_all_none population_size gen hnone]
    rfl
  · intro x hx hpos
    unfold run
    dsimp only
    rw [if_neg (generate_initial_population_nonempty population_size gen x hx hpos)]
    rfl

/-- Witness for C5 (amended): a run whose oracle never succeeds ends in
the assertion error, and a run with one success and population size 2
returns that individual. -/
theorem c5_seeding_failure_semantics_witness :
    run 1 3 .GREEDY (fun _ => none) idleEvolve (fun _ => 0) [teacherT] [room1] 5
      = .error ("AssertionError: Empty initial population") ∧
    run 2 0 .GREEDY oneSuccess idleEvolve (fun _ => 0) [teacherT] [room1] 0
      = .ok ((generate_initial_population 2 oneSuccess).getD 0 ([], [])) :=
  ⟨(c5_seeding_failure_semantics 1 .GREEDY (fun _ => none) idleEvolve (fun _ => 0)
      [teacherT] [room1] 5 3).1 (fun _ => rfl),
   (c5_seeding_failure_semantics 2 .GREEDY oneSuccess idleEvolve (fun _ => 0)
      [teacherT] [room1] 0 0).2 seedInd rfl (by decide)⟩

theorem foldl_max_init (l : List Int) : ∀ a : Int, a ≤ l.foldl max a := by
  induction l with
  | nil => intro a; exact le_refl a
  | cons y ys ih =>
    intro a
    rw [List.foldl_cons]
    calc a ≤ max a y := le_max_left a y
      _ ≤ ys.foldl max (max a y) := ih (max a y)

theorem mem_le_foldl_max (l : List Int) : ∀ (a x : Int), x ∈ l → x ≤ l.foldl max a := by
  induction l with
  | nil => intro a x hx; cases hx
  | cons y ys ih =>
    intro a x hx
    rw [List.foldl_cons]
    rcases List.mem_cons.mp hx with h | h
    · rw [h]
      calc y ≤ max a y := le_max_right a y
        _ ≤ ys.foldl max (max a y) := foldl_max_init ys (max a y)
    · exact ih (max a y) x h

theorem foldl_min_init (l : List Int) : ∀ a : Int, l.foldl min a ≤ a := by
  induction l with
  | nil => intro a; exact le_refl a
  | cons y ys ih =>
    intro a
    rw [List.foldl_cons]
    calc ys.foldl min (min a y) ≤ min a y := ih (min a y)
      _ ≤ a := min_le_left a y

theorem foldl_min_le_mem (l : List Int) : ∀ (a x : Int), x ∈ l → l.foldl min a ≤ x := by
  induction l with
  | nil => intro a x hx; cases hx
  | cons y ys ih =>
    intro a x hx
    rw [List.foldl_cons]
    rcases List.mem_cons.mp hx with h | h
    · rw [h]
      calc ys.foldl min (min a y) ≤ min a y := foldl_min_init ys (min a y)
        _ ≤ y := min_le_right a y
    · exact ih (min a y) x h

theorem le_listMaxZ {l : List Int} {x : Int} (hx : x ∈ l) : x ≤ listMaxZ l := by
  cases l with
  | nil => cases hx
  | cons y ys =>
    unfold listMaxZ
    rcases List.mem_cons.mp hx with h | h
    · rw [h]
      exact foldl_max_init ys y
    · exact mem_le_foldl_max ys y x h

theorem listMinZ_le {l : List Int} {x : Int} (hx : x ∈ l) : listMinZ l ≤ x := by
  cases l with
  | nil => cases hx
  | cons y ys =>
    unfold listMinZ
    rcases List.mem_cons.mp hx with h | h
    · rw [h]
      exact foldl_min_init ys y
    · exact foldl_min_le_mem ys y x h

theorem nodup_length_le_span (l : List Int) (hne : l ≠ []) (hnd : l.Nodup) :
    (l.length : Int) ≤ listMaxZ l - listMinZ l + 1 := by
  have hsub : l.toFinset ⊆ Finset.Icc (listMinZ l) (listMaxZ l) := by
    intro x hx
    rw [List.mem_toFinset] at hx
    rw [Finset.mem_Icc]
    exact ⟨listMinZ_le hx, le_listMaxZ hx⟩
  have hcard := Finset.card_le_card hsub
  rw [List.toFinset_card_of_nodup hnd, Int.card_Icc] at hcard
  obtain ⟨x, hx⟩ := List.exists_mem_of_ne_nil l hne
  have h1 : listMinZ l ≤ listMaxZ l := le_trans (listMinZ_le hx) (le_listMaxZ hx)
  omega

theorem value_injective : ∀ a b : TimeSlotTime, a.value = b.value → a = b := by
  intro a b
  cases a <;> cases b <;> decide

theorem dayWindows_nonneg (slots : List TimeSlot) (day : TimeSlotDay)
    (h : slots.Pairwise (· ≠ ·)) : 0 ≤ dayWindows slots day := by
  unfold dayWindows
  dsimp only
  split_ifs with hlen
  · have hnd : (slots.filter fun s => s.day = day).Pairwise (· ≠ ·) := h.filter _
    have hvals : ((slots.filter fun s => s.day = day).map fun s => s.time.value).Nodup := by
      unfold List.Nodup
      rw [List.pairwise_map]
      refine hnd.imp_of_mem fun {a b} ha hb hab => ?_
      have had : a.day = day := by simpa using (List.mem_filter.mp ha).2
      have hbd : b.day = day := by simpa using (List.mem_filter.mp hb).2
      intro hv
      exact hab (by
        obtain ⟨da, ta⟩ := a
        obtain ⟨db, tb⟩ := b
        simp only at had hbd hv
        rw [had, hbd, value_injective ta tb hv])
    have hne : (slots.filter fun s => s.day = day) ≠ [] := by
      intro h0
      rw [h0] at hlen
      simp at hlen
    have hspan := nodup_length_le_span _ (by simpa using hne) hvals
    rw [List.length_map] at hspan
    omega
  · exact le_refl 0

theorem calculate_windows_number_nonneg (slots : List TimeSlot)
    (h : slots.Pairwise (· ≠ ·)) : 0 ≤ calculate_windows_number slots := by
  have h1 := dayWindows_nonneg slots TimeSlotDay.MONDAY h
  have h2 := dayWindows_nonneg slots TimeSlotDay.TUESDAY h
  have h3 := dayWindows_nonneg slots TimeSlotDay.WEDNESDAY h
  have h4 := dayWindows_nonneg slots TimeSlotDay.THURSDAY h
  have h5 := dayWindows_nonneg slots TimeSlotDay.FRIDAY h
  unfold calculate_windows_number
  simp only [allDays, List.foldl_cons, List.foldl_nil]
  omega

theorem groupSlots_pairwise (store : Store) (sched : Sched) (g : String)
    (hg : (sessionsOf store sched).Pairwise
      fun a b => ¬(a.time_slot = b.time_slot ∧ a.group.name = b.group.name)) :
    (groupSlots store sched g).Pairwise (· ≠ ·) := by
  unfold groupSlots
  rw [List.pairwise_map]
  refine (hg.filter _).imp_of_mem fun {a b} ha hb hab => ?_
  have hag : a.group.name = g := by simpa using (List.mem_filter.mp ha).2
  have hbg : b.group.name = g := by simpa using (List.mem_filter.mp hb).2
  intro hts
  exact hab ⟨hts, hag.trans hbg.symm⟩

theorem teacherSlots_pairwise (store : Store) (sched : Sched) (t : String)
    (ht : (sessionsOf store sched).Pairwise
      fun a b => ¬(a.time_slot = b.time_slot ∧ a.teacher.fullname = b.teacher.fullname)) :
    (teacherSlots store sched t).Pairwise (· ≠ ·) := by
  unfold teacherSlots
  rw [List.pairwise_map]
  refine (ht.filter _).imp_of_mem fun {a b} ha hb hab => ?_
  have hat : a.teacher.fullname = t := by simpa using (List.mem_filter.mp ha).2
  have hbt : b.teacher.fullname = t := by simpa using (List.mem_filter.mp hb).2
  intro hts
  exact hab ⟨hts, hat.trans hbt.symm⟩

theorem total_groups_windows_nonneg (store : Store) (sched : Sched)
    (hg : (sessionsOf store sched).Pairwise
      fun a b => ¬(a.time_slot = b.time_slot ∧ a.group.name = b.group.name)) :
    0 ≤ total_groups_windows store sched := by
  unfold total_groups_windows
  apply List.sum_nonneg
  intro x hx
  rw [List.mem_map] at hx
  obtain ⟨g, _, rfl⟩ := hx
  exact calculate_windows_number_nonneg _ (groupSlots_pairwise store sched g hg)

theorem total_teachers_windows_nonneg (store : Store) (sched : Sched)
    (ht : (sessionsOf store sched).Pairwise
      fun a b => ¬(a.time_slot = b.time_slot ∧ a.teacher.fullname = b.teacher.fullname)) :
    0 ≤ total_teachers_windows store sched := by
  unfold total_teachers_windows
  apply List.sum_nonneg
  intro x hx
  rw [List.mem_map] at hx
  obtain ⟨t, _, rfl⟩ := hx
  exact calculate_windows_number_nonneg _ (teacherSlots_pairwise store sched t ht)

theorem seats_lacking_nonneg (store : Store) (sched : Sched) :
    0 ≤ seats_lacking store sched := by
  unfold seats_lacking
  apply List.sum_nonneg
  intro x hx
  rw [List.mem_map] at hx
  obtain ⟨s, _, rfl⟩ := hx
  exact le_max_right _ _

/-- C7, amended.  For every schedule in which no two sessions at
distinct positions share both a time slot and a group name and none
share both a time slot and a teacher fullname (as every
constraint-checked alias-free schedule does), the score
1/(1 + group_windows + teacher_windows + seats_lacking) lies in (0, 1]
and equals 1 exactly iff all three penalty terms are 0. -/
theorem c7_score_bounds_amended (store : Store) (sched : Sched)
    (hg : (sessionsOf store sched).Pairwise
      fun a b => ¬(a.time_slot = b.time_slot ∧ a.group.name = b.group.name))
    (ht : (sessionsOf store sched).Pairwise
      fun a b => ¬(a.time_slot = b.time_slot ∧ a.teacher.fullname = b.teacher.fullname)) :
    0 < get_score store sched ∧ get_score store sched ≤ 1 ∧
    (get_score store sched = 1 ↔
      total_groups_windows store sched = 0 ∧ total_teachers_windows store sched = 0 ∧
        seats_lacking store sched = 0) := by
  have hgw := total_groups_windows_nonneg store sched hg
  have htw := total_teachers_windows_nonneg store sched ht
  have hsl := seats_lacking_nonneg store sched
  unfold get_score
  set T : Int := total_groups_windows store sched + total_teachers_windows store sched +
    seats_lacking store sched with hT
  have hT0 : 0 ≤ T := by omega
  have hTc : (0 : Rat) ≤ (T : Rat) := by exact_mod_cast hT0
  have hden : (0 : Rat) < 1 + (T : Rat) := by linarith
  refine ⟨one_div_pos.mpr hden, ?_, ?_⟩
  · rw [div_le_one hden]
    linarith
  · rw [div_eq_one_iff_eq (ne_of_gt hden)]
    constructor
    · intro h
      have hc : (T : Rat) = 0 := by linarith
      have hT' : T = 0 := by exact_mod_cast hc
      refine ⟨?_, ?_, ?_⟩ <;> omega
    · rintro ⟨h1, h2, h3⟩
      have hT' : T = 0 := by omega
      rw [hT']
      norm_num

/-- Witness for C7 (amended): the bounds applied to the empty schedule,
whose hypotheses hold vacuously. -/
theorem c7_score_bounds_amended_witness :
    0 < get_score clashStore [] ∧ get_score clashStore [] ≤ 1 ∧
    (get_score clashStore [] = 1 ↔
      total_groups_windows clashStore [] = 0 ∧ total_teachers_windows clashStore [] = 0 ∧
        seats_lacking clashStore [] = 0) :=
  c7_score_bounds_amended clashStore [] List.Pairwise.nil List.Pairwise.nil

end Scheduler
